import Mathlib

/-!
Verification of the outlet resale pricing calculator.

The pricing pipeline, formatter and history-store wrappers of the source
component are embedded shallowly: JavaScript numbers are modelled as exact
rationals, and a value that is `undefined`/`NaN` at runtime is modelled as
`none` (the display layer renders those as "-"; `NaN` and `undefined`
behave identically through the arithmetic stages, both producing `NaN`).
-/

namespace OutletCalc

/-- Discount mode toggle of the first discount (source line 35). -/
inductive DiscountMode where
  | amount
  | percent
deriving DecidableEq, Repr

/-- Source line 36: `clamp(n, min, max) = Math.min(max, Math.max(min, n))`. -/
def clamp (n lo hi : ℚ) : ℚ := min hi (max lo n)

/-- Source lines 40-52: first-discount stage. In amount mode the amount
(defaulted to 0 when missing) is clamped to `[0, basePrice]` and subtracted,
floored at 0; in percent mode the percent (defaulted to 0) is clamped to
`[0, 100]`. An undefined (`NaN`) base price propagates as `none`: in JS,
`clamp(a, 0, NaN)`, `NaN - x` and `NaN * x` are all `NaN`. -/
def step2AfterFirstDiscount (basePrice : Option ℚ) (mode : DiscountMode)
    (amount percent : Option ℚ) : Option ℚ :=
  match mode, basePrice with
  | _, none => none
  | .amount, some b => some (max 0 (b - clamp (amount.getD 0) 0 b))
  | .percent, some b => some (b * (1 - clamp (percent.getD 0) 0 100 / 100))

/-- Source line 54: `applyExtraPercent(price, extra) = price * (1 - clamp(extra,0,100)/100)`.
A missing (`undefined`) extra percent makes `clamp` return `NaN`, so the
result is `NaN`, modelled as `none`; likewise a `NaN` price propagates. -/
def applyExtraPercent (price extraPercent : Option ℚ) : Option ℚ :=
  match price, extraPercent with
  | some p, some e => some (p * (1 - clamp e 0 100 / 100))
  | _, _ => none

/-- Source line 55: `simpleRefund10(final) = final * 0.1`. -/
def simpleRefund10 (final : Option ℚ) : Option ℚ :=
  final.map (fun f => f * (1 / 10))

/-- Source line 199: `afterRefund10 = Math.max(0, final - refund10)`;
`Math.max(0, NaN) = NaN`. -/
def afterRefund10 (final refund : Option ℚ) : Option ℚ :=
  match final, refund with
  | some f, some r => some (max 0 (f - r))
  | _, _ => none

/-- Source line 58: `kreamNetFromPrice(price) = price * 0.956 - 5500`,
`undefined` when the price is absent. -/
def kreamNetFromPrice (price : Option ℚ) : Option ℚ :=
  price.map (fun p => p * (956 / 1000) - 5500)

/-- Source line 59: `kreamFeeFromPrice(price, net) = price - net` when both
are defined, else `undefined`. -/
def kreamFeeFromPrice (price net : Option ℚ) : Option ℚ :=
  match price, net with
  | some p, some n => some (p - n)
  | _, _ => none

/-- Source lines 61-67: Poizon settlement, piecewise on the price. -/
def poizonNetFromPrice (price : Option ℚ) : Option ℚ :=
  match price with
  | none => none
  | some p =>
    if p ≤ 150000 then some (p - 15000)
    else if p ≥ 450000 then some (p - 45000)
    else some (p * (9 / 10))

/-- Source line 69: identical to the Kream fee. -/
def poizonFeeFromPrice (price net : Option ℚ) : Option ℚ :=
  match price, net with
  | some p, some n => some (p - n)
  | _, _ => none

/-- Display denominator `(final || 1)` used by every margin-percent
expression (source lines 299, 311, 467, 494, 548, 550): in JS, `0` and
`NaN` are falsy, so both are replaced by 1. -/
def marginDenom (final : Option ℚ) : ℚ :=
  match final with
  | none => 1
  | some f => if f = 0 then 1 else f

/-- Results-panel Poizon margin, source lines 297-299 (also the input-card
badge, line 467): `poizonNet - final + refund10`. -/
def resultsPoizonMargin (net final refund : ℚ) : ℚ := net - final + refund

/-- Results-panel Kream margin, source lines 309-311 (also line 494):
`kreamNet - final`. -/
def resultsKreamMargin (net final : ℚ) : ℚ := net - final

/-- History-row Kream margin, source line 548: `h.kreamNet - h.final`. -/
def historyRowKreamMargin (net final : ℚ) : ℚ := net - final

/-- History-row Poizon margin, source line 550: `h.poizonNet - h.final`
(the `+ refund10` of the results panel does not appear here). -/
def historyRowPoizonMargin (net final : ℚ) : ℚ := net - final

/-- Margin percent as rendered: `margin / (final || 1) * 100`. -/
def marginPercent (margin : ℚ) (final : Option ℚ) : ℚ :=
  margin / marginDenom final * 100

/-- Source lines 73 and 78: `value.replace(/[^0-9]/g, "")`. -/
def stripNonDigits (s : String) : String :=
  String.mk (s.data.filter Char.isDigit)

/-- Numeric value of a digit character. -/
def charVal (c : Char) : ℕ := c.toNat - 48

/-- Value of a digit string, as `Number` computes it on an all-digit
string (exact-integer model of the JS float). -/
def charsToNat (l : List Char) : ℕ :=
  l.foldl (fun acc c => acc * 10 + charVal c) 0

/-- Source lines 77-80: `parseNumberInput` strips non-digits and parses
the remainder; an empty remainder is "no value" (`undefined`), never 0. -/
def parseNumberInput (s : String) : Option ℕ :=
  let digits := stripNonDigits s
  if digits.data.isEmpty then none else some (charsToNat digits.data)

/-- Digit character for a value below 10 (used to model decimal
rendering, `Number.prototype.toString`). -/
def digitChar (d : ℕ) : Char :=
  if d = 0 then '0' else if d = 1 then '1' else if d = 2 then '2'
  else if d = 3 then '3' else if d = 4 then '4' else if d = 5 then '5'
  else if d = 6 then '6' else if d = 7 then '7' else if d = 8 then '8'
  else '9'

/-- Decimal digits of a natural number, most significant first. -/
def toDecChars (n : ℕ) : List Char :=
  if _h : n < 10 then [digitChar n]
  else toDecChars (n / 10) ++ [digitChar (n % 10)]
decreasing_by exact Nat.div_lt_self (by omega) (by omega)

/-- Decimal string of a natural number (`Number.prototype.toString`). -/
def natToString (n : ℕ) : String := String.mk (toDecChars n)

/-- Thousands grouping on a reversed digit list: a comma after every
three characters, as `Intl.NumberFormat("ko-KR")` groups integers. -/
def groupRev : List Char → List Char
  | [] => []
  | [a] => [a]
  | [a, b] => [a, b]
  | [a, b, c] => [a, b, c]
  | a :: b :: c :: d :: rest => a :: b :: c :: ',' :: groupRev (d :: rest)

/-- Thousands grouping from the right, as `Intl.NumberFormat("ko-KR")`
formats a nonnegative integer. -/
def groupThousands (l : List Char) : List Char :=
  (groupRev l.reverse).reverse

/-- Source lines 72-76: `formatNumberInput` strips non-digits, maps an
empty remainder to the empty string, and otherwise renders
`Number(digits)` with ko-KR thousands grouping. -/
def formatNumberInput (s : String) : String :=
  let digits := stripNonDigits s
  if digits.data.isEmpty then ""
  else String.mk (groupThousands (toDecChars (charsToNat digits.data)))

/-- JS `String.prototype.trim`: whitespace stripped from both ends. -/
def jsTrim (s : String) : String :=
  String.mk
    (((s.data.dropWhile Char.isWhitespace).reverse.dropWhile
        Char.isWhitespace).reverse)

/-- Source lines 86-103: a saved history record. The TS type declares
`basePrice`, `extra`, `final` and `refund10` as `number`, but at runtime
they hold whatever the component state holds, which can be
`undefined`/`NaN`; those runtime values are modelled as `none`. -/
structure HistoryItem where
  id : String
  basePrice : Option ℚ
  discountMode : DiscountMode
  baseDiscountAmount : Option ℚ := none
  baseDiscountPercent : Option ℚ := none
  extra : Option ℚ
  memo : Option String := none
  final : Option ℚ
  refund10 : Option ℚ
  kreamPrice : Option ℚ := none
  kreamFee : Option ℚ := none
  kreamNet : Option ℚ := none
  poizonPrice : Option ℚ := none
  poizonFee : Option ℚ := none
  poizonNet : Option ℚ := none
  created_at : Option String := none
deriving DecidableEq, Repr

/-- Source lines 166-177: the component state the save action reads. -/
structure CalcState where
  basePrice : Option ℚ
  discountMode : DiscountMode
  baseDiscountAmount : Option ℚ
  baseDiscountPercent : Option ℚ
  extra : Option ℚ
  memo : String
  history : List HistoryItem
  kreamPrice : Option ℚ
  poizonPrice : Option ℚ
deriving DecidableEq, Repr

/-- Source lines 193-196: the memoized first-discounted price. -/
def CalcState.step2 (st : CalcState) : Option ℚ :=
  step2AfterFirstDiscount st.basePrice st.discountMode
    st.baseDiscountAmount st.baseDiscountPercent

/-- Source line 197: the memoized final price. -/
def CalcState.final (st : CalcState) : Option ℚ :=
  applyExtraPercent st.step2 st.extra

/-- Source line 198: the tax amount. -/
def CalcState.refund10 (st : CalcState) : Option ℚ :=
  simpleRefund10 st.final

/-- Source lines 201-204: memoized platform values. -/
def CalcState.kreamNet (st : CalcState) : Option ℚ :=
  kreamNetFromPrice st.kreamPrice

/-- Source line 202. -/
def CalcState.kreamFee (st : CalcState) : Option ℚ :=
  kreamFeeFromPrice st.kreamPrice st.kreamNet

/-- Source line 203. -/
def CalcState.poizonNet (st : CalcState) : Option ℚ :=
  poizonNetFromPrice st.poizonPrice

/-- Source line 204. -/
def CalcState.poizonFee (st : CalcState) : Option ℚ :=
  poizonFeeFromPrice st.poizonPrice st.poizonNet

/-- Source lines 217-233: the record the save action builds. Amount-mode
clamp: `clamp(baseDiscountAmount ?? 0, 0, basePrice)` is `NaN` when
`basePrice` is undefined, hence the `Option.map`; the stored extra is
`clamp(extra, 0, 100)` with no default, so a missing extra stays
undefined (`NaN`); the stored memo is `memo.trim() || undefined`. -/
def saveNewItem (freshId : String) (st : CalcState) : HistoryItem :=
  { id := freshId
    basePrice := st.basePrice
    discountMode := st.discountMode
    baseDiscountAmount :=
      if st.discountMode = .amount then
        st.basePrice.map (fun b => clamp (st.baseDiscountAmount.getD 0) 0 b)
      else none
    baseDiscountPercent :=
      if st.discountMode = .percent then
        some (clamp (st.baseDiscountPercent.getD 0) 0 100)
      else none
    extra := st.extra.map (fun e => clamp e 0 100)
    memo := if jsTrim st.memo = "" then none else some (jsTrim st.memo)
    final := st.final
    refund10 := st.refund10
    kreamPrice := st.kreamPrice
    kreamFee := st.kreamFee
    kreamNet := st.kreamNet
    poizonPrice := st.poizonPrice
    poizonFee := st.poizonFee
    poizonNet := st.poizonNet }

/-- Outcome of the save action: the updated state and whether the
rejection alert fired. -/
structure SaveResult where
  state : CalcState
  alerted : Bool
deriving DecidableEq, Repr

/-- Source lines 206-247: `saveHistory`. An empty trimmed memo alerts and
returns without touching state; otherwise the new record (with the
freshly generated id) is prepended to the history and the memo field is
cleared. The asynchronous DB insert never mutates component state. -/
def saveHistory (freshId : String) (st : CalcState) : SaveResult :=
  if jsTrim st.memo = "" then ⟨st, true⟩
  else
    ⟨{ st with history := saveNewItem freshId st :: st.history, memo := "" },
     false⟩

/-- JS string truthiness: `undefined` and `""` are falsy. -/
def jsTruthyString (s : Option String) : Bool :=
  match s with
  | none => false
  | some v => v != ""

/-- Source lines 26-30: the client exists iff both environment values are
truthy (`SUPABASE_URL && SUPABASE_ANON_KEY`). -/
def supabaseConfigured (url anonKey : Option String) : Bool :=
  jsTruthyString url && jsTruthyString anonKey

/-- Error message returned by every store wrapper when the client is not
configured (source lines 110, 130, 157). -/
def notConfiguredMsg : String := "Supabase 미설정"

/-- Source line 72 of the spec / lines 111-125 of the source: the
snake_case row sent to and read from the `outlet_history` table. -/
structure OutletHistoryRow where
  id : String
  memo : Option String
  base_price : Option ℚ
  discount_mode : DiscountMode
  base_discount_amount : Option ℚ
  base_discount_percent : Option ℚ
  extra : Option ℚ
  final : Option ℚ
  refund10 : Option ℚ
  kream_price : Option ℚ
  kream_net : Option ℚ
  poizon_price : Option ℚ
  poizon_net : Option ℚ
  created_at : Option String
deriving DecidableEq, Repr

/-- Source lines 111-125: the insert payload (`?? null` on optional
fields; `created_at` is server-assigned, not sent). -/
def itemToRow (item : HistoryItem) : OutletHistoryRow :=
  { id := item.id
    memo := item.memo
    base_price := item.basePrice
    discount_mode := item.discountMode
    base_discount_amount := item.baseDiscountAmount
    base_discount_percent := item.baseDiscountPercent
    extra := item.extra
    final := item.final
    refund10 := item.refund10
    kream_price := item.kreamPrice
    kream_net := item.kreamNet
    poizon_price := item.poizonPrice
    poizon_net := item.poizonNet
    created_at := none }

/-- Source lines 137-152: mapping a fetched row back to a `HistoryItem`
(`?? undefined` on optional columns; the fee fields are not stored and
come back undefined). -/
def rowToItem (r : OutletHistoryRow) : HistoryItem :=
  { id := r.id
    memo := r.memo
    basePrice := r.base_price
    discountMode := r.discount_mode
    baseDiscountAmount := r.base_discount_amount
    baseDiscountPercent := r.base_discount_percent
    extra := r.extra
    final := r.final
    refund10 := r.refund10
    kreamPrice := r.kream_price
    kreamFee := none
    kreamNet := r.kream_net
    poizonPrice := r.poizon_price
    poizonFee := none
    poizonNet := r.poizon_net
    created_at := r.created_at }

/-- Result of the insert wrapper: whether the remote table was contacted,
the row sent (if any) and the returned error. -/
structure DbInsertResult where
  contactedStore : Bool
  sentRow : Option OutletHistoryRow
  error : Option String
deriving DecidableEq, Repr

/-- Source lines 109-127: `dbInsertHistory`. Without a configured client
it returns the "not configured" error and never contacts the store;
otherwise it sends the mapped row and surfaces the remote error, if any. -/
def dbInsertHistory (configured : Bool) (remoteError : Option String)
    (item : HistoryItem) : DbInsertResult :=
  if !configured then ⟨false, none, some notConfiguredMsg⟩
  else ⟨true, some (itemToRow item), remoteError⟩

/-- Result of the fetch wrapper. -/
structure DbFetchResult where
  contactedStore : Bool
  data : List HistoryItem
  error : Option String
deriving DecidableEq, Repr

/-- Source lines 129-154: `dbFetchHistory`. Without a configured client
it returns `[]` with the "not configured" error and never contacts the
store; a remote failure also yields `[]` plus the error; on success the
rows (already ordered and limited by the query) are mapped back. -/
def dbFetchHistory (configured : Bool)
    (remote : Except String (List OutletHistoryRow)) : DbFetchResult :=
  if !configured then ⟨false, [], some notConfiguredMsg⟩
  else
    match remote with
    | .error e => ⟨true, [], some e⟩
    | .ok rows => ⟨true, rows.map rowToItem, none⟩

/-- Result of the delete wrapper: whether the store was contacted, the id
of the row asked to be deleted (if any) and the returned error. -/
structure DbDeleteResult where
  contactedStore : Bool
  requestedId : Option String
  error : Option String
deriving DecidableEq, Repr

/-- Source lines 156-160: `dbDeleteHistory`. -/
def dbDeleteHistory (configured : Bool) (remoteError : Option String)
    (id : String) : DbDeleteResult :=
  if !configured then ⟨false, none, some notConfiguredMsg⟩
  else ⟨true, some id, remoteError⟩

/-- Observable outcome of the initial-load effect. -/
structure InitialLoadResult where
  fetchInvoked : Bool
  history : List HistoryItem
  loadingHistory : Bool
deriving DecidableEq, Repr

/-- Source lines 181-189: the initial-load effect. When the client is
missing it returns immediately; when present it sets the loading flag and
clears it again — the `dbFetchHistory` call and the `setHistory` on its
result are commented out in the source, so the store is never consulted
and the history list is left as it is. -/
def initialLoadEffect (configured : Bool) (history : List HistoryItem)
    (loadingHistory : Bool) : InitialLoadResult :=
  if !configured then ⟨false, history, loadingHistory⟩
  else ⟨false, history, false⟩

/-- Sample component state used by concrete witnesses. -/
def exampleSaveState : CalcState :=
  { basePrice := some 100000
    discountMode := .amount
    baseDiscountAmount := some 20000
    baseDiscountPercent := none
    extra := some 10
    memo := "nike af1"
    history := []
    kreamPrice := some 65000
    poizonPrice := some 66000 }

/-- The sample state with a whitespace-only memo. -/
def exampleEmptyMemoState : CalcState :=
  { exampleSaveState with memo := "  " }

end OutletCalc

namespace OutletCalc

/-- C1: for every base price `B ≥ 0`, the first-discount stage in amount
mode returns `max(0, B - clamp(A, 0, B))` for every amount `A`, a missing
amount defaulting to 0; in percent mode it returns `B * (1 - P/100)` for
every `P ∈ [0, 100]`, clamps an out-of-range `P`, and defaults a missing
`P` to 0. -/
theorem c1_apply_first_discount (B : ℚ) (_hB : 0 ≤ B) :
    (∀ A P : Option ℚ,
      step2AfterFirstDiscount (some B) .amount A P
        = some (max 0 (B - clamp (A.getD 0) 0 B)))
    ∧ (∀ A : Option ℚ, ∀ P : ℚ, 0 ≤ P → P ≤ 100 →
      step2AfterFirstDiscount (some B) .percent A (some P)
        = some (B * (1 - P / 100)))
    ∧ (∀ A : Option ℚ, ∀ P : ℚ,
      step2AfterFirstDiscount (some B) .percent A (some P)
        = some (B * (1 - clamp P 0 100 / 100)))
    ∧ (∀ A : Option ℚ,
      step2AfterFirstDiscount (some B) .percent A none
        = some (B * (1 - 0 / 100))) := by
  refine ⟨fun A P => rfl, fun A P hP0 hP100 => ?_, fun A P => rfl, fun A => ?_⟩
  · show some (B * (1 - clamp P 0 100 / 100)) = _
    rw [clamp, max_eq_right hP0, min_eq_right hP100]
  · show some (B * (1 - clamp 0 0 100 / 100)) = _
    norm_num [clamp]

/-- C1 witness at `B = 100000`, `A = 20000` and `P = 10`. -/
theorem c1_apply_first_discount_witness :
    step2AfterFirstDiscount (some 100000) .amount (some 20000) none
      = some (max 0 (100000 - clamp 20000 0 100000))
    ∧ step2AfterFirstDiscount (some 100000) .percent none (some 10)
      = some (100000 * (1 - 10 / 100)) :=
  ⟨(c1_apply_first_discount 100000 (by norm_num)).1 (some 20000) none,
   (c1_apply_first_discount 100000 (by norm_num)).2.1 none 10
     (by norm_num) (by norm_num)⟩

/-- C2: for every defined listing price `p`, Kream pays `p*0.956 - 5500`
with fee `p - net` (so `net + fee = p`); Poizon pays `p - 15000` for
`p ≤ 150000`, `p - 45000` for `p ≥ 450000` and `p*0.9` in between, with
fee `p - net`; the boundary values are `135000`, `405000` and `270000`;
an absent price gives undefined net and fee on both platforms. -/
theorem c2_platform_settlement (p : ℚ) :
    kreamNetFromPrice (some p) = some (p * (956 / 1000) - 5500)
    ∧ kreamFeeFromPrice (some p) (kreamNetFromPrice (some p))
        = some (p - (p * (956 / 1000) - 5500))
    ∧ (∀ n f : ℚ, kreamNetFromPrice (some p) = some n →
        kreamFeeFromPrice (some p) (some n) = some f → n + f = p)
    ∧ (p ≤ 150000 → poizonNetFromPrice (some p) = some (p - 15000))
    ∧ (450000 ≤ p → poizonNetFromPrice (some p) = some (p - 45000))
    ∧ (150000 < p → p < 450000 →
        poizonNetFromPrice (some p) = some (p * (9 / 10)))
    ∧ (∀ n f : ℚ, poizonNetFromPrice (some p) = some n →
        poizonFeeFromPrice (some p) (some n) = some f → n + f = p)
    ∧ poizonNetFromPrice (some 150000) = some 135000
    ∧ poizonNetFromPrice (some 450000) = some 405000
    ∧ poizonNetFromPrice (some 300000) = some 270000
    ∧ kreamNetFromPrice none = none
    ∧ kreamFeeFromPrice none (kreamNetFromPrice none) = none
    ∧ poizonNetFromPrice none = none
    ∧ poizonFeeFromPrice none (poizonNetFromPrice none) = none := by
  refine ⟨rfl, rfl, ?_, ?_, ?_, ?_, ?_, ?_, ?_, ?_, rfl, rfl, rfl, rfl⟩
  · intro n f hn hf
    simp only [kreamFeeFromPrice, Option.some.injEq] at hf
    rw [← hf]; ring
  · intro h; simp [poizonNetFromPrice, h]
  · intro h
    have h1 : ¬ p ≤ 150000 := by linarith
    have h2 : p ≥ 450000 := h
    simp [poizonNetFromPrice, h1, h2]
  · intro h1 h2
    have h1' : ¬ p ≤ 150000 := by linarith
    have h2' : ¬ p ≥ 450000 := by linarith
    simp [poizonNetFromPrice, h1', h2']
  · intro n f hn hf
    simp only [poizonFeeFromPrice, Option.some.injEq] at hf
    rw [← hf]; ring
  · norm_num [poizonNetFromPrice]
  · norm_num [poizonNetFromPrice]
  · norm_num [poizonNetFromPrice]

/-- C2 witness at `p = 300000`: the middle Poizon branch and the Kream
fee/net complement, with every hypothesis discharged concretely. -/
theorem c2_platform_settlement_witness :
    poizonNetFromPrice (some 300000) = some (300000 * (9 / 10))
    ∧ (300000 : ℚ) * (956 / 1000) - 5500 + (300000 - (300000 * (956 / 1000) - 5500))
        = 300000 :=
  ⟨((c2_platform_settlement 300000).2.2.2.2.2.1 (by norm_num) (by norm_num)),
   (c2_platform_settlement 300000).2.2.1 (300000 * (956 / 1000) - 5500)
     (300000 - (300000 * (956 / 1000) - 5500)) rfl rfl⟩

/-- C3 counterexample: the claim asserts the history-row Poizon margin is
`net - finalPrice + taxAmount`; at net 51000, final 72000, tax 7200 the
row displays `net - final = -21000`, not `-13800`. -/
theorem c3_margin_asymmetry_cex :
    ¬ (historyRowPoizonMargin 51000 72000 = 51000 - 72000 + 7200) := by
  norm_num [historyRowPoizonMargin]

/-- C3 (amended): in the results panel the Poizon margin is
`net - final + taxAmount` and the Kream margin is `net - final`; in
history rows BOTH margins are `net - final` (the Poizon tax adjustment is
dropped there); every margin percent is `margin / (final || 1) * 100`,
whose denominator replaces a zero or unknown final price by 1 and is
therefore never zero. -/
theorem c3_margin_asymmetry (net final refund : ℚ) (F : Option ℚ) :
    resultsPoizonMargin net final refund = net - final + refund
    ∧ resultsKreamMargin net final = net - final
    ∧ historyRowKreamMargin net final = net - final
    ∧ historyRowPoizonMargin net final = net - final
    ∧ marginPercent (net - final) F = (net - final) / marginDenom F * 100
    ∧ marginDenom F ≠ 0
    ∧ marginDenom none = 1
    ∧ marginDenom (some 0) = 1
    ∧ (∀ f : ℚ, f ≠ 0 → marginDenom (some f) = f) := by
  refine ⟨rfl, rfl, rfl, rfl, rfl, ?_, rfl, by simp [marginDenom], ?_⟩
  · cases F with
    | none => simp [marginDenom]
    | some f =>
      by_cases hf : f = 0 <;> simp [marginDenom, hf]
  · intro f hf; simp [marginDenom, hf]

/-- C3 amended-theorem witness at net 51000, final 72000, refund 7200 and
a defined nonzero final price. -/
theorem c3_margin_asymmetry_witness :
    historyRowPoizonMargin 51000 72000 = 51000 - 72000
    ∧ marginDenom (some 72000) = 72000 :=
  ⟨(c3_margin_asymmetry 51000 72000 7200 (some 72000)).2.2.2.1,
   (c3_margin_asymmetry 51000 72000 7200 (some 72000)).2.2.2.2.2.2.2.2 72000
     (by norm_num)⟩

/-- C4: for every final price `F` the tax is `F * 0.1` and the after-tax
base is `max(0, F - F*0.1)`; the worked scenario (base 100000, amount
discount 20000, extra 10%) gives 80000, 72000, 7200 and 64800. -/
theorem c4_tax_split (F : ℚ) :
    simpleRefund10 (some F) = some (F * (1 / 10))
    ∧ afterRefund10 (some F) (simpleRefund10 (some F))
        = some (max 0 (F - F * (1 / 10)))
    ∧ step2AfterFirstDiscount (some 100000) .amount (some 20000) none
        = some 80000
    ∧ applyExtraPercent (some 80000) (some 10) = some 72000
    ∧ simpleRefund10 (some 72000) = some 7200
    ∧ afterRefund10 (some 72000) (some 7200) = some 64800 := by
  refine ⟨rfl, rfl, ?_, ?_, ?_, ?_⟩
  · show some (max 0 (100000 - clamp 20000 0 100000)) = _
    norm_num [clamp]
  · show some ((80000 : ℚ) * (1 - clamp 10 0 100 / 100)) = _
    norm_num [clamp]
  · show some ((72000 : ℚ) * (1 / 10)) = _
    norm_num
  · show some (max 0 ((72000 : ℚ) - 7200)) = _
    norm_num

/-- C5 counterexample: the claim asserts a missing extra-discount percent
applied to a defined price yields a defined numeric result; in the code
`clamp(undefined, 0, 100)` is `NaN`, so the final price is unknown. -/
theorem c5_total_stages_cex :
    ¬ ∃ r : ℚ, applyExtraPercent (some 80000) none = some r := by
  simp [applyExtraPercent]

/-- C5 (amended): no stage raises an error (all stages are total
functions); an undefined upstream value — an undefined base price, price,
or extra percent — propagates as an undefined downstream value, in
particular a missing extra percent applied to a defined price yields an
unknown final price rather than a defined number; missing first-discount
fields default to 0 and out-of-range values are clamped, so a defined
nonnegative base price always yields a defined nonnegative stage result. -/
theorem c5_total_stages :
    (∀ mode a q, step2AfterFirstDiscount none mode a q = none)
    ∧ (∀ e, applyExtraPercent none e = none)
    ∧ (∀ pr : ℚ, applyExtraPercent (some pr) none = none)
    ∧ (∀ b : ℚ, 0 ≤ b → ∀ mode a q, ∃ r : ℚ,
        step2AfterFirstDiscount (some b) mode a q = some r ∧ 0 ≤ r)
    ∧ (∀ pr e : ℚ, ∃ r : ℚ, applyExtraPercent (some pr) (some e) = some r)
    ∧ simpleRefund10 none = none
    ∧ (∀ r, afterRefund10 none r = none)
    ∧ (∀ f : ℚ, ∃ v : ℚ,
        afterRefund10 (some f) (simpleRefund10 (some f)) = some v ∧ 0 ≤ v) := by
  refine ⟨?_, fun e => rfl, fun pr => rfl, ?_, fun pr e => ⟨_, rfl⟩, rfl,
    fun r => rfl, ?_⟩
  · intro mode a q; cases mode <;> rfl
  · intro b hb mode a q
    cases mode with
    | amount =>
      exact ⟨_, rfl, le_max_left 0 _⟩
    | percent =>
      refine ⟨_, rfl, mul_nonneg hb ?_⟩
      have h1 : clamp (q.getD 0) 0 100 ≤ 100 := min_le_left _ _
      linarith
  · intro f
    exact ⟨_, rfl, le_max_left 0 _⟩

/-- C5 amended-theorem witness at base price 100000 in amount mode. -/
theorem c5_total_stages_witness :
    ∃ r : ℚ,
      step2AfterFirstDiscount (some 100000) .amount (some 20000) none = some r
      ∧ 0 ≤ r :=
  c5_total_stages.2.2.2.1 100000 (by norm_num) .amount (some 20000) none

theorem charsToNat_append (l : List Char) (c : Char) :
    charsToNat (l ++ [c]) = charsToNat l * 10 + charVal c := by
  simp [charsToNat, List.foldl_append]

theorem charVal_digitChar : ∀ d < 10, charVal (digitChar d) = d := by decide

theorem isDigit_digitChar : ∀ d < 10, (digitChar d).isDigit = true := by decide

theorem charsToNat_toDecChars (n : ℕ) : charsToNat (toDecChars n) = n := by
  induction n using Nat.strong_induction_on with
  | _ n ih =>
    rw [toDecChars]
    split
    · next h =>
      simpa [charsToNat] using charVal_digitChar n h
    · next h =>
      rw [charsToNat_append, ih (n / 10) (Nat.div_lt_self (by omega) (by omega)),
        charVal_digitChar (n % 10) (Nat.mod_lt _ (by omega))]
      omega

theorem toDecChars_all_digits (n : ℕ) :
    ∀ c ∈ toDecChars n, c.isDigit = true := by
  induction n using Nat.strong_induction_on with
  | _ n ih =>
    rw [toDecChars]
    split
    · next h =>
      intro c hc
      simp only [List.mem_singleton] at hc
      subst hc
      exact isDigit_digitChar n h
    · next h =>
      intro c hc
      rw [List.mem_append] at hc
      rcases hc with hc | hc
      · exact ih (n / 10) (Nat.div_lt_self (by omega) (by omega)) c hc
      · simp only [List.mem_singleton] at hc
        subst hc
        exact isDigit_digitChar (n % 10) (Nat.mod_lt _ (by omega))

theorem toDecChars_ne_nil (n : ℕ) : toDecChars n ≠ [] := by
  rw [toDecChars]; split <;> simp

theorem filter_groupRev (l : List Char) (h : ∀ c ∈ l, c.isDigit = true) :
    (groupRev l).filter Char.isDigit = l := by
  induction l using groupRev.induct with
  | case1 => rfl
  | case2 a =>
    simp [groupRev, List.filter, h a (by simp)]
  | case3 a b =>
    simp [groupRev, List.filter, h a (by simp), h b (by simp)]
  | case4 a b c =>
    simp [groupRev, List.filter, h a (by simp), h b (by simp), h c (by simp)]
  | case5 a b c d rest ih =>
    have hcomma : (',' : Char).isDigit = false := by decide
    simp only [groupRev, List.filter_cons, h a (by simp), h b (by simp),
      h c (by simp), hcomma, if_true, if_false]
    have := ih (fun x hx => h x
      (List.mem_cons_of_mem a (List.mem_cons_of_mem b (List.mem_cons_of_mem c hx))))
    simp_all

theorem filter_groupThousands (l : List Char)
    (h : ∀ c ∈ l, c.isDigit = true) :
    (groupThousands l).filter Char.isDigit = l := by
  unfold groupThousands
  rw [List.filter_reverse,
    filter_groupRev l.reverse (fun c hc => h c (List.mem_reverse.mp hc)),
    List.reverse_reverse]

/-- C6: `parseNumberInput` strips all non-digit characters and parses the
remainder as an integer, returning no value (never 0) when no digits
remain; and whenever it is defined, formatting the parsed value's decimal
string and parsing again gives the same value back. -/
theorem c6_parse_format_roundtrip (s : String) :
    ((stripNonDigits s).data.isEmpty = true → parseNumberInput s = none)
    ∧ ((stripNonDigits s).data.isEmpty = false →
        parseNumberInput s = some (charsToNat (stripNonDigits s).data))
    ∧ (∀ n : ℕ, parseNumberInput s = some n →
        parseNumberInput (formatNumberInput (natToString n))
          = parseNumberInput s) := by
  refine ⟨fun h => by simp [parseNumberInput, h],
    fun h => by simp [parseNumberInput, h], fun n hn => ?_⟩
  have hdigits :
      (stripNonDigits (natToString n)).data = toDecChars n := by
    show (toDecChars n).filter Char.isDigit = toDecChars n
    exact List.filter_eq_self.mpr (toDecChars_all_digits n)
  have hne : (toDecChars n).isEmpty = false :=
    List.isEmpty_eq_false.mpr (toDecChars_ne_nil n)
  have hfmt : formatNumberInput (natToString n)
      = String.mk (groupThousands (toDecChars n)) := by
    have hexp : formatNumberInput (natToString n)
        = if (stripNonDigits (natToString n)).data.isEmpty then ""
          else String.mk (groupThousands
            (toDecChars (charsToNat (stripNonDigits (natToString n)).data))) := rfl
    rw [hexp, hdigits, if_neg (by simp [hne]), charsToNat_toDecChars]
  rw [hfmt, hn]
  have hstrip :
      (stripNonDigits (String.mk (groupThousands (toDecChars n)))).data
        = toDecChars n := by
    show (groupThousands (toDecChars n)).filter Char.isDigit = toDecChars n
    exact filter_groupThousands _ (toDecChars_all_digits n)
  have hexp2 : parseNumberInput (String.mk (groupThousands (toDecChars n)))
      = if (stripNonDigits (String.mk (groupThousands (toDecChars n)))).data.isEmpty
          then none
        else some (charsToNat
          (stripNonDigits (String.mk (groupThousands (toDecChars n)))).data) := rfl
  rw [hexp2, hstrip, if_neg (by simp [hne]), charsToNat_toDecChars]

/-- C6 witness on the input "1,234won-77": parsing, formatting and parsing
again yields the same value 123477. -/
theorem c6_parse_format_roundtrip_witness :
    parseNumberInput (formatNumberInput (natToString 123477))
      = parseNumberInput "1,234won-77" :=
  (c6_parse_format_roundtrip "1,234won-77").2.2 123477 (by rfl)

/-- C7: saving with an empty (trimmed) label leaves the whole state —
history included — unchanged and fires the alert; saving with a
non-empty label fires no alert and prepends exactly one record carrying
the freshly generated id, the existing records (the new list's tail)
unchanged; when the fresh id is new, no existing record shares it. -/
theorem c7_save_history (freshId : String) (st : CalcState) :
    (jsTrim st.memo = "" → saveHistory freshId st = ⟨st, true⟩)
    ∧ (jsTrim st.memo ≠ "" →
        (saveHistory freshId st).alerted = false
        ∧ (saveHistory freshId st).state.history
            = saveNewItem freshId st :: st.history
        ∧ (saveNewItem freshId st).id = freshId
        ∧ (freshId ∉ st.history.map HistoryItem.id →
            ∀ h ∈ st.history, h.id ≠ (saveNewItem freshId st).id)) := by
  constructor
  · intro h
    simp [saveHistory, h]
  · intro h
    refine ⟨by simp [saveHistory, h], by simp [saveHistory, h], rfl, ?_⟩
    intro hfresh x hx heq
    exact hfresh (List.mem_map.mpr ⟨x, hx, heq⟩)

/-- C7 witness: the sample state with a whitespace memo is rejected
unchanged; the sample state with a real memo gets exactly the new record
prepended. -/
theorem c7_save_history_witness :
    saveHistory "uuid-1" exampleEmptyMemoState = ⟨exampleEmptyMemoState, true⟩
    ∧ (saveHistory "uuid-1" exampleSaveState).state.history
        = saveNewItem "uuid-1" exampleSaveState :: exampleSaveState.history :=
  ⟨(c7_save_history "uuid-1" exampleEmptyMemoState).1 (by decide),
   ((c7_save_history "uuid-1" exampleSaveState).2 (by decide)).2.1⟩

/-- C8 counterexample: with a configured store, the initial-load effect
does not invoke the store's list operation — the `dbFetchHistory` call is
commented out in the source. -/
theorem c8_initial_load_cex :
    ¬ ((initialLoadEffect true [] false).fetchInvoked = true) := by decide

/-- C8 (amended): the initial-load step never invokes the store's list
operation (the call is commented out in the source) and leaves the
in-memory history list — which starts empty and is the sole source of
truth for display — untouched; when the store is configured it merely
sets and clears the loading flag, and when not configured it returns
immediately. -/
theorem c8_initial_load (cfg : Bool) (h : List HistoryItem) (ld : Bool) :
    (initialLoadEffect cfg h ld).fetchInvoked = false
    ∧ (initialLoadEffect cfg h ld).history = h
    ∧ (cfg = true → (initialLoadEffect cfg h ld).loadingHistory = false)
    ∧ (cfg = false → (initialLoadEffect cfg h ld).loadingHistory = ld) := by
  cases cfg <;> simp [initialLoadEffect]

/-- C8 amended-theorem witness with a configured store and the loading
flag initially set. -/
theorem c8_initial_load_witness :
    (initialLoadEffect true [] true).loadingHistory = false :=
  (c8_initial_load true [] true).2.2.1 rfl

/-- C9: when either configuration value is absent the client is not
created, and insert, list and delete all short-circuit with the
"not configured" error without contacting the store; and whenever the
list operation reports any error it yields the empty sequence. -/
theorem c9_db_degradation (url anonKey : Option String) :
    (url = none ∨ anonKey = none →
      supabaseConfigured url anonKey = false
      ∧ (∀ re item, dbInsertHistory (supabaseConfigured url anonKey) re item
          = ⟨false, none, some notConfiguredMsg⟩)
      ∧ (∀ remote, dbFetchHistory (supabaseConfigured url anonKey) remote
          = ⟨false, [], some notConfiguredMsg⟩)
      ∧ (∀ re i, dbDeleteHistory (supabaseConfigured url anonKey) re i
          = ⟨false, none, some notConfiguredMsg⟩))
    ∧ (∀ cfg remote, (dbFetchHistory cfg remote).error ≠ none →
        (dbFetchHistory cfg remote).data = []) := by
  constructor
  · intro habs
    have hcfg : supabaseConfigured url anonKey = false := by
      rcases habs with h | h <;> subst h <;>
        simp [supabaseConfigured, jsTruthyString]
    exact ⟨hcfg,
      fun re item => by simp [dbInsertHistory, hcfg],
      fun remote => by simp [dbFetchHistory, hcfg],
      fun re i => by simp [dbDeleteHistory, hcfg]⟩
  · intro cfg remote herr
    cases cfg with
    | false => simp [dbFetchHistory]
    | true =>
      cases remote with
      | error e => simp [dbFetchHistory]
      | ok rows =>
        exfalso
        simp [dbFetchHistory] at herr

/-- C9 witness with a missing URL: the list operation short-circuits
without contacting the store. -/
theorem c9_db_degradation_witness :
    dbFetchHistory (supabaseConfigured none (some "anon-key")) (Except.ok [])
      = ⟨false, [], some notConfiguredMsg⟩ :=
  ((c9_db_degradation none (some "anon-key")).1 (Or.inl rfl)).2.2.1
    (Except.ok [])

/-- C10: every record the save action creates stores only the active
mode's first-discount field — the other is undefined — with the amount
clamped to `[0, basePrice]` and the percent clamped to `[0, 100]`, and
stores the extra percent clamped to `[0, 100]` (a missing extra stays
undefined, the clamp of `NaN`). -/
theorem c10_saved_record_clamps (freshId : String) (st : CalcState)
    (hmemo : jsTrim st.memo ≠ "") :
    (saveHistory freshId st).state.history.head?
        = some (saveNewItem freshId st)
    ∧ (st.discountMode = .amount →
        (saveNewItem freshId st).baseDiscountPercent = none
        ∧ (saveNewItem freshId st).baseDiscountAmount
            = st.basePrice.map
                (fun b => clamp (st.baseDiscountAmount.getD 0) 0 b)
        ∧ (∀ b : ℚ, st.basePrice = some b → 0 ≤ b →
            ∃ a : ℚ, (saveNewItem freshId st).baseDiscountAmount = some a
              ∧ 0 ≤ a ∧ a ≤ b))
    ∧ (st.discountMode = .percent →
        (saveNewItem freshId st).baseDiscountAmount = none
        ∧ ∃ q : ℚ, (saveNewItem freshId st).baseDiscountPercent = some q
            ∧ 0 ≤ q ∧ q ≤ 100)
    ∧ (saveNewItem freshId st).extra = st.extra.map (fun e => clamp e 0 100)
    ∧ (∀ e : ℚ, st.extra = some e →
        ∃ q : ℚ, (saveNewItem freshId st).extra = some q
          ∧ 0 ≤ q ∧ q ≤ 100) := by
  refine ⟨by simp [saveHistory, hmemo], ?_, ?_, rfl, ?_⟩
  · intro hmode
    refine ⟨by simp [saveNewItem, hmode], by simp [saveNewItem, hmode], ?_⟩
    intro b hb hb0
    refine ⟨clamp (st.baseDiscountAmount.getD 0) 0 b, ?_, ?_, min_le_left _ _⟩
    · simp [saveNewItem, hmode, hb]
    · exact le_min hb0 (le_max_left 0 _)
  · intro hmode
    have hne : st.discountMode ≠ .amount := by simp [hmode]
    refine ⟨by simp [saveNewItem, hne], ?_⟩
    refine ⟨clamp (st.baseDiscountPercent.getD 0) 0 100, ?_, ?_, min_le_left _ _⟩
    · simp [saveNewItem, hmode]
    · exact le_min (by norm_num) (le_max_left 0 _)
  · intro e he
    refine ⟨clamp e 0 100, ?_, ?_, min_le_left _ _⟩
    · simp [saveNewItem, he]
    · exact le_min (by norm_num) (le_max_left 0 _)

/-- C10 witness on the sample state: amount mode stores a clamped amount
within `[0, 100000]`. -/
theorem c10_saved_record_clamps_witness :
    ∃ a : ℚ,
      (saveNewItem "uuid-2" exampleSaveState).baseDiscountAmount = some a
      ∧ 0 ≤ a ∧ a ≤ 100000 :=
  ((c10_saved_record_clamps "uuid-2" exampleSaveState (by decide)).2.1
    rfl).2.2 100000 rfl (by norm_num)

end OutletCalc
